import Mathlib

/-!
Shallow embedding of `aws-sso-helper` (src/unnamed/part_000, the Lambda
variant; src/index.js is the CLI variant with the same sync logic).
The program reconciles the AWS SSO SCIM user directory against a CSV
user list: it diffs the two sets by lower-cased email/userName and
issues HTTP creates/deletes for the differences.

JavaScript strings are modelled as Lean `String`; `toLowerCase` as
the character-wise `toLowerCase` below and `trim` as `jsTrim` below
(both executable so that concrete runs evaluate).  HTTP outcomes are an
explicit oracle (`HttpResult`) passed in, since the network is
external.  Promises are modelled by their eventual state
(`PromiseResult`: fulfilled with a value, rejected with an Error
message, or never settling), and `Promise.all` by `promiseAll`, which
rejects as soon as one input rejects and stays pending when an input
never settles.
-/

/-- A CSV row as consumed by `createUser` / `syncUsers`: the four
required columns plus the `id` attached after successful creation.
An absent column (JS `undefined`) is modelled as the empty string,
which is falsy in JS exactly like `undefined` in the validation test
`csvUser[field] && !!(csvUser[field].trim())`. -/
structure CsvUser where
  givenName : String
  familyName : String
  displayName : String
  email : String
  id : Option String := none
deriving Repr, DecidableEq

/-- A remote SSO user resource as consumed by `syncUsers` /
`deleteUser`: the directory identifier and the `userName` matching
key. -/
structure SsoUser where
  id : String
  userName : String
deriving Repr, DecidableEq

/-- JS `String.prototype.toLowerCase`, modelled character-wise (the
inputs of interest are ASCII, where this matches JS exactly). -/
def String.toLowerCase (s : String) : String :=
  String.mk (s.data.map Char.toLower)

/-- JS `String.prototype.trim`: strip whitespace from both ends. -/
def String.jsTrim (s : String) : String :=
  String.mk (((s.data.dropWhile Char.isWhitespace).reverse.dropWhile Char.isWhitespace).reverse)

/-- `ssoUsers.map(u => u.userName.toLowerCase())` (part_000 line 114). -/
def ssoUserEmails (ssoUsers : List SsoUser) : List String :=
  ssoUsers.map (fun ssoUser => ssoUser.userName.toLowerCase)

/-- `csvUsers.map(u => u.email.toLowerCase())` (part_000 line 118). -/
def csvUserEmails (csvUsers : List CsvUser) : List String :=
  csvUsers.map (fun csvUser => csvUser.email.toLowerCase)

/-- The creation work list (part_000 lines 125-130): a CSV user is
queued for creation when `ssoUserEmails.indexOf(email.toLowerCase())
=== -1`, i.e. its lower-cased email is not an element of the
lower-cased remote userNames. -/
def userCreations (ssoUsers : List SsoUser) (csvUsers : List CsvUser) : List CsvUser :=
  csvUsers.filter (fun csvUser => !(ssoUserEmails ssoUsers).contains csvUser.email.toLowerCase)

/-- The deletion work list (part_000 lines 132-137): an SSO user is
queued for deletion when `csvUserEmails.indexOf(userName.toLowerCase())
=== -1`. -/
def userDeletions (ssoUsers : List SsoUser) (csvUsers : List CsvUser) : List SsoUser :=
  ssoUsers.filter (fun ssoUser => !(csvUserEmails csvUsers).contains ssoUser.userName.toLowerCase)

lemma mem_userCreations {ssoUsers : List SsoUser} {csvUsers : List CsvUser} {u : CsvUser} :
    u ∈ userCreations ssoUsers csvUsers ↔
      u ∈ csvUsers ∧ u.email.toLowerCase ∉ ssoUserEmails ssoUsers := by
  simp [userCreations, List.mem_filter]

lemma mem_userDeletions {ssoUsers : List SsoUser} {csvUsers : List CsvUser} {u : SsoUser} :
    u ∈ userDeletions ssoUsers csvUsers ↔
      u ∈ ssoUsers ∧ u.userName.toLowerCase ∉ csvUserEmails csvUsers := by
  simp [userDeletions, List.mem_filter]

/-- **C1.** The diff partitions the work by case-insensitive key
membership: a local (CSV) record is in the creation set iff it is a
local record whose lower-cased email is absent from the lower-cased
remote userNames, and a remote record is in the deletion set iff it is
a remote record whose lower-cased userName is absent from the
lower-cased local emails. -/
theorem c1_diff_partition (ssoUsers : List SsoUser) (csvUsers : List CsvUser) :
    (∀ u : CsvUser, u ∈ userCreations ssoUsers csvUsers ↔
      u ∈ csvUsers ∧ u.email.toLowerCase ∉ (ssoUsers.map (fun r => r.userName.toLowerCase))) ∧
    (∀ r : SsoUser, r ∈ userDeletions ssoUsers csvUsers ↔
      r ∈ ssoUsers ∧ r.userName.toLowerCase ∉ (csvUsers.map (fun u => u.email.toLowerCase))) := by
  constructor
  · intro u
    exact mem_userCreations
  · intro r
    exact mem_userDeletions

/-- **C6.** Matching is case-insensitive on the full key: a local
record and a remote record whose email and userName agree after
lower-casing are neither created nor deleted; and membership in either
work list depends on no field other than the email / userName key (two
records agreeing on the key are treated identically by the diff). -/
theorem c6_case_insensitive_matching (ssoUsers : List SsoUser) (csvUsers : List CsvUser)
    (l : CsvUser) (r : SsoUser)
    (hl : l ∈ csvUsers) (hr : r ∈ ssoUsers)
    (hkey : l.email.toLowerCase = r.userName.toLowerCase) :
    l ∉ userCreations ssoUsers csvUsers ∧
    r ∉ userDeletions ssoUsers csvUsers ∧
    (∀ l₁ l₂ : CsvUser, l₁ ∈ csvUsers → l₂ ∈ csvUsers → l₁.email = l₂.email →
      (l₁ ∈ userCreations ssoUsers csvUsers ↔ l₂ ∈ userCreations ssoUsers csvUsers)) ∧
    (∀ r₁ r₂ : SsoUser, r₁ ∈ ssoUsers → r₂ ∈ ssoUsers → r₁.userName = r₂.userName →
      (r₁ ∈ userDeletions ssoUsers csvUsers ↔ r₂ ∈ userDeletions ssoUsers csvUsers)) := by
  have hcreate : l.email.toLowerCase ∈ ssoUserEmails ssoUsers := by
    rw [hkey]
    exact List.mem_map_of_mem (fun ssoUser => ssoUser.userName.toLowerCase) hr
  have hdelete : r.userName.toLowerCase ∈ csvUserEmails csvUsers := by
    rw [← hkey]
    exact List.mem_map_of_mem (fun csvUser => csvUser.email.toLowerCase) hl
  refine ⟨?_, ?_, ?_, ?_⟩
  · intro hmem
    exact (mem_userCreations.mp hmem).2 hcreate
  · intro hmem
    exact (mem_userDeletions.mp hmem).2 hdelete
  · intro l₁ l₂ h₁ h₂ hkey₂
    rw [mem_userCreations, mem_userCreations, hkey₂]
    exact ⟨fun h => ⟨h₂, h.2⟩, fun h => ⟨h₁, h.2⟩⟩
  · intro r₁ r₂ h₁ h₂ hkey₂
    rw [mem_userDeletions, mem_userDeletions, hkey₂]
    exact ⟨fun h => ⟨h₂, h.2⟩, fun h => ⟨h₁, h.2⟩⟩

/-- Witness for C6 at the spec's own example: local email `Foo@Bar.com`
against remote userName `foo@bar.com`; the matched local record is not
placed in the creation work list. -/
theorem c6_case_insensitive_matching_witness :
    (⟨"A", "X", "A X", "Foo@Bar.com", none⟩ : CsvUser) ∉
      userCreations [⟨"1", "foo@bar.com"⟩] [⟨"A", "X", "A X", "Foo@Bar.com", none⟩] :=
  (c6_case_insensitive_matching [⟨"1", "foo@bar.com"⟩]
    [⟨"A", "X", "A X", "Foo@Bar.com", none⟩]
    ⟨"A", "X", "A X", "Foo@Bar.com", none⟩ ⟨"1", "foo@bar.com"⟩
    (by decide) (by decide) (by decide)).1

lemma mem_ssoUserEmails {l : List SsoUser} {s : String} :
    s ∈ ssoUserEmails l ↔ ∃ r ∈ l, r.userName.toLowerCase = s := by
  simp [ssoUserEmails]

lemma mem_csvUserEmails {l : List CsvUser} {s : String} :
    s ∈ csvUserEmails l ↔ ∃ u ∈ l, u.email.toLowerCase = s := by
  simp [csvUserEmails]

/-- The remote set after a fully successful run: the deleted records
are gone and each created CSV record appears as a remote user whose
`userName` is the email the POST body carried (with whatever id the
directory assigned). -/
def updatedSsoUsers (ssoUsers : List SsoUser) (csvUsers : List CsvUser)
    (assignId : CsvUser → String) : List SsoUser :=
  (ssoUsers.filter (fun r => r ∉ userDeletions ssoUsers csvUsers)) ++
    ((userCreations ssoUsers csvUsers).map (fun c => ⟨assignId c, c.email⟩))

/-- **C8.** The diff is idempotent across runs: when the first run's
creations and deletions all succeed and are reflected in the remote
set, the second run's diff over the updated remote set and the same
CSV list is empty in both directions. -/
theorem c8_diff_idempotent (ssoUsers : List SsoUser) (csvUsers : List CsvUser)
    (assignId : CsvUser → String) :
    userCreations (updatedSsoUsers ssoUsers csvUsers assignId) csvUsers = [] ∧
    userDeletions (updatedSsoUsers ssoUsers csvUsers assignId) csvUsers = [] := by
  constructor
  · rw [userCreations, List.filter_eq_nil_iff]
    intro u hu
    have hmem : u.email.toLowerCase ∈ ssoUserEmails (updatedSsoUsers ssoUsers csvUsers assignId) := by
      rw [mem_ssoUserEmails]
      by_cases h : u.email.toLowerCase ∈ ssoUserEmails ssoUsers
      · obtain ⟨r, hr, hrk⟩ := mem_ssoUserEmails.mp h
        refine ⟨r, ?_, hrk⟩
        rw [updatedSsoUsers]
        refine List.mem_append.mpr (Or.inl (List.mem_filter.mpr ⟨hr, ?_⟩))
        simp only [decide_eq_true_eq]
        intro hrdel
        exact (mem_userDeletions.mp hrdel).2
          (mem_csvUserEmails.mpr ⟨u, hu, hrk.symm ▸ rfl⟩)
      · refine ⟨⟨assignId u, u.email⟩, ?_, rfl⟩
        rw [updatedSsoUsers]
        exact List.mem_append.mpr (Or.inr
          (List.mem_map_of_mem _ (mem_userCreations.mpr ⟨hu, h⟩)))
    simp [hmem]
  · rw [userDeletions, List.filter_eq_nil_iff]
    intro r hr
    have hmem : r.userName.toLowerCase ∈ csvUserEmails csvUsers := by
      rw [updatedSsoUsers] at hr
      rcases List.mem_append.mp hr with hkept | hcreated
      · obtain ⟨hrs, hnd⟩ := List.mem_filter.mp hkept
        simp only [decide_eq_true_eq] at hnd
        by_contra habs
        exact hnd (mem_userDeletions.mpr ⟨hrs, habs⟩)
      · obtain ⟨c, hc, hcr⟩ := List.mem_map.mp hcreated
        rw [mem_csvUserEmails]
        exact ⟨c, (mem_userCreations.mp hc).1, by rw [← hcr]⟩
    simp [hmem]

/-- Outcome of a single HTTP request, as seen through `got`'s
behaviour: a 2xx response with a JSON body carrying `id` fulfils;
anything else (non-2xx or network failure) throws, and the handlers
branch on `error.response.statusCode` (409 for creates, 404 for
deletes). -/
inductive HttpResult where
  | ok (id : String)
  | conflict
  | notFound
  | otherError
deriving Repr, DecidableEq

/-- A JS value as it appears in the settled results arrays of
`syncUsers`: a fulfilled creation resolves with the CSV record, a
fulfilled deletion resolves with `null`, and the counting loops test
`instanceof Error`. -/
inductive JsValue where
  | record (u : CsvUser)
  | jsNull
  | jsError (msg : String)
deriving Repr, DecidableEq

/-- `value instanceof Error` on a settled value. -/
def JsValue.isError : JsValue → Bool
  | .jsError _ => true
  | _ => false

/-- The `name` sub-object of the SCIM create payload. -/
structure NameObject where
  familyName : String
  givenName : String
deriving Repr, DecidableEq

/-- One element of the `emails` array of the SCIM create payload. -/
structure EmailObject where
  value : String
  type : String
  primary : Bool
deriving Repr, DecidableEq

/-- The JSON body POSTed to `{endpoint}/Users` (part_000 lines
184-201). -/
structure UserObject where
  userName : String
  name : NameObject
  displayName : String
  emails : List EmailObject
  active : Bool
deriving Repr, DecidableEq

/-- The validation test in `createUser` (part_000 lines 169-171):
`csvUser[field] && !!(csvUser[field].trim())` — the field must be
truthy (non-empty; an absent column is modelled as `""`) and its trim
must be truthy (non-empty). -/
def isFieldValid (field : String) : Bool :=
  !field.isEmpty && !(field.jsTrim.isEmpty)

/-- The conjunction guarding the validation `reject` (part_000 lines
173-176). -/
def isCsvUserValid (csvUser : CsvUser) : Bool :=
  isFieldValid csvUser.givenName && isFieldValid csvUser.familyName &&
    isFieldValid csvUser.displayName && isFieldValid csvUser.email

/-- The `userObject` literal of `createUser` (part_000 lines 184-201). -/
def buildUserObject (csvUser : CsvUser) : UserObject :=
  { userName := csvUser.email
    name := { familyName := csvUser.familyName, givenName := csvUser.givenName }
    displayName := csvUser.displayName
    emails := [{ value := csvUser.email, type := "work", primary := true }]
    active := true }

/-- The state of a JS promise once the run's asynchronous work has
drained: fulfilled with a value, rejected with an Error message, or
never settled at all. -/
inductive PromiseResult where
  | fulfilled (v : JsValue)
  | rejected (msg : String)
  | pending
deriving Repr, DecidableEq

/-- What one call of `createUser` does (part_000 lines 164-231).  For
an invalid record the validation branch first calls
`logger.warning(errorMessage, csvUser)` (line 179) — but the winston
logger built at line 19 uses the default npm levels, which define
`warn` and no `warning` method, so that call throws `TypeError:
logger.warning is not a function` inside the promise executor: the
`reject` below it is never reached, no `userObject` is built, no POST
is issued, and the promise returned by `createUser` never settles (the
TypeError rejects only the ignored implicit promise of the async
executor function).  For a valid record the `userObject` is built, the
POST is issued, and the promise settles on the HTTP outcome. -/
structure CreateCallResult where
  postIssued : Bool
  postedBody : Option UserObject
  promise : PromiseResult
deriving Repr, DecidableEq

/-- `createUser(csvUser)` with the HTTP outcome supplied by the oracle
`env`. -/
def createUser (env : CsvUser → HttpResult) (csvUser : CsvUser) : CreateCallResult :=
  if isCsvUserValid csvUser then
    { postIssued := true
      postedBody := some (buildUserObject csvUser)
      promise :=
        match env csvUser with
        | .ok newId => .fulfilled (.record { csvUser with id := some newId })
        | .conflict => .rejected "Error creating user due to conflicting user."
        | _ => .rejected "Error creating user" }
  else
    { postIssued := false
      postedBody := none
      promise := .pending }

/-- The promise returned by `createUser`. -/
def createPromise (env : CsvUser → HttpResult) (csvUser : CsvUser) : PromiseResult :=
  (createUser env csvUser).promise

/-- `deleteUser(ssoUser)` (part_000 lines 233-262): resolves `null` on
2xx, rejects with an Error on 404 or any other failure (this path only
calls `logger.info`/`logger.error`, which exist, so it has no analogue
of the `warning` TypeError). -/
def deletePromise (env : SsoUser → HttpResult) (ssoUser : SsoUser) : PromiseResult :=
  match env ssoUser with
  | .ok _ => .fulfilled .jsNull
  | .notFound => .rejected "Error deleting user due to the specified user not existing."
  | _ => .rejected "Error deleting user"

/-- The state of a `Promise.all` once the run's asynchronous work has
drained. -/
inductive PromisesResult where
  | fulfilled (vs : List JsValue)
  | rejected (msg : String)
  | pending
deriving Repr, DecidableEq

/-- `Promise.all`: fulfils with the array of fulfilment values when
every input fulfils; rejects as soon as any input rejects, even while
other inputs are still pending; stays pending forever when no input
rejects but some input never settles. -/
def promiseAll (promises : List PromiseResult) : PromisesResult :=
  match promises with
  | [] => .fulfilled []
  | p :: rest =>
    match p with
    | .rejected e => .rejected e
    | .pending =>
      match promiseAll rest with
      | .rejected e => .rejected e
      | .pending => .pending
      | .fulfilled _ => .pending
    | .fulfilled v =>
      match promiseAll rest with
      | .rejected e => .rejected e
      | .pending => .pending
      | .fulfilled vs => .fulfilled (v :: vs)

/-- How one invocation of `syncUsers` ends.  A rejected `Promise.all`
makes the awaiting `syncUsers` reject in part_000 (in index.js the
same throw is swallowed by the promise-executor wrapper and the
returned promise never settles) — in either variant no summary is
produced, which `.rejected` models.  `.hung` models an `await` on a
`Promise.all` that never settles: the run neither rejects nor
completes.  `.crashed` models a thrown TypeError (property access on
`undefined`). -/
inductive RunResult where
  | completed (summary : String)
  | rejected
  | hung
  | crashed
deriving Repr, DecidableEq

/-- `syncUsers(ssoUsers, csvUsers)` (part_000 lines 111-162): diff,
fire all creations and deletions, await both `Promise.all`s, count
settled values that are not `instanceof Error`, compose the summary. -/
def syncUsers (createEnv : CsvUser → HttpResult) (deleteEnv : SsoUser → HttpResult)
    (ssoUsers : List SsoUser) (csvUsers : List CsvUser) : RunResult :=
  let creations := (userCreations ssoUsers csvUsers).map (createPromise createEnv)
  let deletions := (userDeletions ssoUsers csvUsers).map (deletePromise deleteEnv)
  match promiseAll creations with
  | .rejected _ => .rejected
  | .pending => .hung
  | .fulfilled creationResults =>
    match promiseAll deletions with
    | .rejected _ => .rejected
    | .pending => .hung
    | .fulfilled deletionResults =>
      let creationSuccesses := creationResults.countP (fun v => !v.isError)
      let deletionSuccesses := deletionResults.countP (fun v => !v.isError)
      .completed ("Completed creating " ++ toString creationSuccesses ++ "/" ++
        toString creations.length ++ " and deleting " ++ toString deletionSuccesses ++
        "/" ++ toString deletions.length ++ " user(s).")

/-- Whether the creation promise for this record fulfils. -/
def createSucceeded (env : CsvUser → HttpResult) (csvUser : CsvUser) : Bool :=
  match createPromise env csvUser with
  | .fulfilled _ => true
  | _ => false

/-- Whether the deletion promise for this record fulfils. -/
def deleteSucceeded (env : SsoUser → HttpResult) (ssoUser : SsoUser) : Bool :=
  match deletePromise env ssoUser with
  | .fulfilled _ => true
  | _ => false

/-- Number of creation attempts of the run that succeed. -/
def successfulCreations (env : CsvUser → HttpResult)
    (ssoUsers : List SsoUser) (csvUsers : List CsvUser) : Nat :=
  (userCreations ssoUsers csvUsers).countP (createSucceeded env)

/-- Number of deletion attempts of the run that succeed. -/
def successfulDeletions (env : SsoUser → HttpResult)
    (ssoUsers : List SsoUser) (csvUsers : List CsvUser) : Nat :=
  (userDeletions ssoUsers csvUsers).countP (deleteSucceeded env)

lemma promiseAll_eq_fulfilled {ps : List PromiseResult} {vs : List JsValue}
    (h : promiseAll ps = .fulfilled vs) : ps = vs.map PromiseResult.fulfilled := by
  induction ps generalizing vs with
  | nil =>
    simp only [promiseAll] at h
    cases h
    rfl
  | cons p rest ih =>
    cases p with
    | rejected e => simp [promiseAll] at h
    | pending =>
      simp only [promiseAll] at h
      cases hrest : promiseAll rest <;> rw [hrest] at h <;> cases h
    | fulfilled v =>
      simp only [promiseAll] at h
      cases hrest : promiseAll rest with
      | rejected e => rw [hrest] at h; cases h
      | pending => rw [hrest] at h; cases h
      | fulfilled vs' =>
        rw [hrest] at h
        cases h
        simp [ih hrest]

lemma createPromise_fulfilled {env : CsvUser → HttpResult} {u : CsvUser} {v : JsValue}
    (h : createPromise env u = .fulfilled v) : v.isError = false := by
  unfold createPromise createUser at h
  by_cases hval : isCsvUserValid u
  · cases henv : env u <;> simp [hval, henv] at h
    rw [← h]
    rfl
  · simp [hval] at h

lemma deletePromise_fulfilled {env : SsoUser → HttpResult} {r : SsoUser} {v : JsValue}
    (h : deletePromise env r = .fulfilled v) : v.isError = false := by
  unfold deletePromise at h
  cases henv : env r <;> simp [henv] at h
  rw [← h]
  rfl

lemma syncUsers_completed {ce : CsvUser → HttpResult} {de : SsoUser → HttpResult}
    {ssoUsers : List SsoUser} {csvUsers : List CsvUser} {s : String}
    (h : syncUsers ce de ssoUsers csvUsers = .completed s) :
    successfulCreations ce ssoUsers csvUsers = (userCreations ssoUsers csvUsers).length ∧
    successfulDeletions de ssoUsers csvUsers = (userDeletions ssoUsers csvUsers).length ∧
    s = "Completed creating " ++ toString (userCreations ssoUsers csvUsers).length ++ "/" ++
      toString (userCreations ssoUsers csvUsers).length ++ " and deleting " ++
      toString (userDeletions ssoUsers csvUsers).length ++ "/" ++
      toString (userDeletions ssoUsers csvUsers).length ++ " user(s)." := by
  simp only [syncUsers] at h
  cases hc : promiseAll ((userCreations ssoUsers csvUsers).map (createPromise ce)) with
  | rejected e => rw [hc] at h; cases h
  | pending => rw [hc] at h; cases h
  | fulfilled creationResults =>
    rw [hc] at h
    cases hd : promiseAll ((userDeletions ssoUsers csvUsers).map (deletePromise de)) with
    | rejected e => rw [hd] at h; cases h
    | pending => rw [hd] at h; cases h
    | fulfilled deletionResults =>
      rw [hd] at h
      have hcs := promiseAll_eq_fulfilled hc
      have hds := promiseAll_eq_fulfilled hd
      have hclen : creationResults.length = (userCreations ssoUsers csvUsers).length := by
        have := congrArg List.length hcs
        simpa using this.symm
      have hdlen : deletionResults.length = (userDeletions ssoUsers csvUsers).length := by
        have := congrArg List.length hds
        simpa using this.symm
      have hcall : ∀ v ∈ creationResults, (!v.isError) = true := by
        intro v hv
        have : PromiseResult.fulfilled v ∈
            (userCreations ssoUsers csvUsers).map (createPromise ce) := by
          rw [hcs]
          exact List.mem_map_of_mem PromiseResult.fulfilled hv
        obtain ⟨u, -, hu⟩ := List.mem_map.mp this
        simp [createPromise_fulfilled hu]
      have hdall : ∀ v ∈ deletionResults, (!v.isError) = true := by
        intro v hv
        have : PromiseResult.fulfilled v ∈
            (userDeletions ssoUsers csvUsers).map (deletePromise de) := by
          rw [hds]
          exact List.mem_map_of_mem PromiseResult.fulfilled hv
        obtain ⟨r, -, hr⟩ := List.mem_map.mp this
        simp [deletePromise_fulfilled hr]
      have hccount : creationResults.countP (fun v => !v.isError) = creationResults.length :=
        List.countP_eq_length.mpr hcall
      have hdcount : deletionResults.countP (fun v => !v.isError) = deletionResults.length :=
        List.countP_eq_length.mpr hdall
      have hsucc : ∀ u ∈ userCreations ssoUsers csvUsers, createSucceeded ce u = true := by
        intro u hu
        have : createPromise ce u ∈ creationResults.map PromiseResult.fulfilled := by
          rw [← hcs]
          exact List.mem_map_of_mem (createPromise ce) hu
        obtain ⟨v, -, hv⟩ := List.mem_map.mp this
        simp [createSucceeded, ← hv]
      have hsucd : ∀ r ∈ userDeletions ssoUsers csvUsers, deleteSucceeded de r = true := by
        intro r hr
        have : deletePromise de r ∈ deletionResults.map PromiseResult.fulfilled := by
          rw [← hds]
          exact List.mem_map_of_mem (deletePromise de) hr
        obtain ⟨v, -, hv⟩ := List.mem_map.mp this
        simp [deleteSucceeded, ← hv]
      refine ⟨List.countP_eq_length.mpr hsucc, List.countP_eq_length.mpr hsucd, ?_⟩
      simp only [RunResult.completed.injEq] at h
      rw [← h, hccount, hdcount, hclen, hdlen, List.length_map, List.length_map]

/-- **C5.** A run that completes returns exactly the string
`Completed creating X/Y and deleting A/B user(s).` with X the
successful and Y the attempted creations, A the successful and B the
attempted deletions; and for empty local and remote lists the result
is `Completed creating 0/0 and deleting 0/0 user(s).`. -/
theorem c5_summary_format (ce : CsvUser → HttpResult) (de : SsoUser → HttpResult) :
    (∀ (ssoUsers : List SsoUser) (csvUsers : List CsvUser) (s : String),
      syncUsers ce de ssoUsers csvUsers = .completed s →
      s = "Completed creating " ++ toString (successfulCreations ce ssoUsers csvUsers) ++
        "/" ++ toString (userCreations ssoUsers csvUsers).length ++ " and deleting " ++
        toString (successfulDeletions de ssoUsers csvUsers) ++ "/" ++
        toString (userDeletions ssoUsers csvUsers).length ++ " user(s).") ∧
    syncUsers ce de [] [] = .completed "Completed creating 0/0 and deleting 0/0 user(s)." := by
  constructor
  · intro ssoUsers csvUsers s h
    obtain ⟨hx, ha, hs⟩ := syncUsers_completed h
    rw [hs, hx, ha]
  · simp [syncUsers, userCreations, userDeletions, promiseAll]
    rfl

/-- Witness for C5: a concrete completing run (one creation, one
deletion, both succeeding) yields the composed summary with the
success and attempt counts of that run. -/
theorem c5_summary_format_witness :
    "Completed creating 1/1 and deleting 1/1 user(s)." =
      "Completed creating " ++
        toString (successfulCreations (fun _ => .ok "id9") [⟨"1", "a@x.com"⟩]
          [⟨"A", "B", "C", "b@x.com", none⟩]) ++
        "/" ++ toString (userCreations [⟨"1", "a@x.com"⟩]
          [⟨"A", "B", "C", "b@x.com", none⟩]).length ++ " and deleting " ++
        toString (successfulDeletions (fun _ => .ok "") [⟨"1", "a@x.com"⟩]
          [⟨"A", "B", "C", "b@x.com", none⟩]) ++ "/" ++
        toString (userDeletions [⟨"1", "a@x.com"⟩]
          [⟨"A", "B", "C", "b@x.com", none⟩]).length ++ " user(s)." :=
  (c5_summary_format (fun _ => .ok "id9") (fun _ => .ok "")).1
    [⟨"1", "a@x.com"⟩] [⟨"A", "B", "C", "b@x.com", none⟩]
    "Completed creating 1/1 and deleting 1/1 user(s)." (by decide)

/-- **C10.** Whenever `syncUsers` returns a summary at all, the
success count equals the attempted count in each category: the message
is always of the form `Y/Y and B/B`, because `Promise.all` fulfils
only when every operation promise fulfils and fulfilled creations and
deletions resolve with a record or `null`, never an `Error`, so the
`instanceof Error` branch of the counting loops never fires. -/
theorem c10_success_equals_attempted (ce : CsvUser → HttpResult) (de : SsoUser → HttpResult)
    (ssoUsers : List SsoUser) (csvUsers : List CsvUser) (s : String)
    (h : syncUsers ce de ssoUsers csvUsers = .completed s) :
    successfulCreations ce ssoUsers csvUsers = (userCreations ssoUsers csvUsers).length ∧
    successfulDeletions de ssoUsers csvUsers = (userDeletions ssoUsers csvUsers).length ∧
    s = "Completed creating " ++ toString (userCreations ssoUsers csvUsers).length ++ "/" ++
      toString (userCreations ssoUsers csvUsers).length ++ " and deleting " ++
      toString (userDeletions ssoUsers csvUsers).length ++ "/" ++
      toString (userDeletions ssoUsers csvUsers).length ++ " user(s)." :=
  syncUsers_completed h

/-- Witness for C10 at a completing run with one creation and one
deletion. -/
theorem c10_success_equals_attempted_witness :
    successfulCreations (fun _ => .ok "id9") [⟨"1", "a@x.com"⟩]
        [⟨"A", "B", "C", "b@x.com", none⟩] =
      (userCreations [⟨"1", "a@x.com"⟩] [⟨"A", "B", "C", "b@x.com", none⟩]).length :=
  (c10_success_equals_attempted (fun _ => .ok "id9") (fun _ => .ok "")
    [⟨"1", "a@x.com"⟩] [⟨"A", "B", "C", "b@x.com", none⟩]
    "Completed creating 1/1 and deleting 1/1 user(s)." (by decide)).1

/-- **C2 (the code diverges from the claim).** A single failed create
or delete does not become a counted failure: `createUser` rejects, the
rejected promise makes `await Promise.all` throw, and `syncUsers`
never reaches the counting loops or the summary.  Concretely: two CSV
users to create, the first failing with a network error and the second
succeeding, plus one SSO user deleted successfully — the run rejects
and no summary is returned. -/
theorem c2_failed_operation_aborts_run :
    syncUsers
      (fun u => if u.email = "bad@x.com" then .otherError else .ok "id1")
      (fun _ => .ok "")
      [⟨"1", "gone@x.com"⟩]
      [⟨"B", "B", "B", "bad@x.com", none⟩, ⟨"G", "G", "G", "good@x.com", none⟩] =
      .rejected := by
  decide

/-- **C3 (the code diverges from the claim).** For a CSV record whose
`givenName` is blank after trimming, no HTTP POST is issued — but not
by the intended skip: the validation branch's `logger.warning` call
throws a TypeError (winston's default npm levels define `warn`, not
`warning`) before the `reject` and before the `userObject` is built.
The creation promise therefore never settles, `await Promise.all`
hangs, and the run produces no summary in which the record could be
counted as an attempted-but-failed creation. -/
theorem c3_invalid_record_hangs_run :
    (createUser (fun _ => .ok "newid") ⟨" ", "Fam", "Disp", "a@x.com", none⟩).postIssued
      = false ∧
    (createUser (fun _ => .ok "newid") ⟨" ", "Fam", "Disp", "a@x.com", none⟩).promise
      = .pending ∧
    syncUsers (fun _ => .ok "newid") (fun _ => .ok "")
      [] [⟨" ", "Fam", "Disp", "a@x.com", none⟩] = .hung := by
  refine ⟨by decide, by decide, by decide⟩

/-- **C4 (the code diverges from the claim).** An HTTP 409 on a
creation attempt rejects that creation's promise, the rejection
propagates through `await Promise.all`, and the run rejects: the 409
is never counted in any denominator because no summary message is
produced at all. -/
theorem c4_conflict_aborts_run :
    createPromise (fun _ => .conflict) ⟨"A", "B", "C", "a@x.com", none⟩ =
      .rejected "Error creating user due to conflicting user." ∧
    syncUsers (fun _ => .conflict) (fun _ => .ok "")
      [] [⟨"A", "B", "C", "a@x.com", none⟩] = .rejected := by
  refine ⟨rfl, by decide⟩

/-- **C9.** For a valid CSV record, `createUser` POSTs exactly the
SCIM payload `{userName: email, name: {familyName, givenName},
displayName, emails: [{value: email, type: "work", primary: true}],
active: true}` built from the record's four required fields, and on a
2xx response the promise fulfils with the input record changed only by
attaching the directory-assigned id. -/
theorem c9_payload_shape_and_id (env : CsvUser → HttpResult) (csvUser : CsvUser)
    (newId : String)
    (hvalid : isCsvUserValid csvUser = true) (hok : env csvUser = .ok newId) :
    (createUser env csvUser).postedBody =
      some { userName := csvUser.email
             name := { familyName := csvUser.familyName, givenName := csvUser.givenName }
             displayName := csvUser.displayName
             emails := [{ value := csvUser.email, type := "work", primary := true }]
             active := true } ∧
    (createUser env csvUser).promise =
      .fulfilled (.record { csvUser with id := some newId }) := by
  unfold createUser
  simp [hvalid, hok, buildUserObject]

/-- Witness for C9 at a concrete valid record and a 2xx response. -/
theorem c9_payload_shape_and_id_witness :
    (createUser (fun _ => .ok "id7") ⟨"G", "F", "D", "a@x.com", none⟩).postedBody =
      some { userName := "a@x.com"
             name := { familyName := "F", givenName := "G" }
             displayName := "D"
             emails := [{ value := "a@x.com", type := "work", primary := true }]
             active := true } ∧
    (createUser (fun _ => .ok "id7") ⟨"G", "F", "D", "a@x.com", none⟩).promise =
      .fulfilled (.record ⟨"G", "F", "D", "a@x.com", some "id7"⟩) :=
  c9_payload_shape_and_id (fun _ => .ok "id7") ⟨"G", "F", "D", "a@x.com", none⟩ "id7"
    (by decide) rfl

/-- Outcome of the GET on `{endpoint}/Users`, as `getUsers` observes
it: either a 2xx JSON body whose `Resources` carry the remote users,
or any transport / non-2xx failure. -/
inductive FetchOutcome where
  | ok (resources : List SsoUser)
  | fetchError
deriving Repr

/-- `getUsers()` (part_000 lines 91-109): on success it returns
`body.Resources`; on any failure the catch block logs the error and
the function falls off its end, returning `undefined` (modelled as
`none`) instead of a list. -/
def getUsers : FetchOutcome → Option (List SsoUser)
  | .ok resources => some resources
  | .fetchError => none

/-- `run(csv)` (part_000 lines 41-46) as far as the remote list is
concerned: `syncUsers` receives `getUsers`'s result, and its first act
is `ssoUsers.map(...)` (line 114), which on `undefined` throws a
TypeError — the run crashes in the diff step instead of completing. -/
def runSync (fetch : FetchOutcome) (createEnv : CsvUser → HttpResult)
    (deleteEnv : SsoUser → HttpResult) (csvUsers : List CsvUser) : RunResult :=
  match getUsers fetch with
  | none => .crashed
  | some ssoUsers => syncUsers createEnv deleteEnv ssoUsers csvUsers

/-- **C7.** When the remote user-list fetch fails, `getUsers` logs and
returns `undefined` rather than a list, and the run then crashes in
the downstream diff step (`undefined.map`): the run fails as a whole
and never produces a summary as if zero remote users existed. -/
theorem c7_failed_fetch_crashes_run (createEnv : CsvUser → HttpResult)
    (deleteEnv : SsoUser → HttpResult) (csvUsers : List CsvUser) :
    getUsers .fetchError = none ∧
    runSync .fetchError createEnv deleteEnv csvUsers = .crashed :=
  ⟨rfl, rfl⟩
